import Mathlib

/-!
Shallow embedding of the workflow-orchestration core of the
`job-automation` repository (backend/agents/): the workflow state record
(`state.py`), the supervisor/router decision logic
(`supervisor_agent.py`), the scraper and matcher stages
(`scraper_agent.py`, `matcher_agent.py`), the threshold-adjustment and
strategy-adjustment logic (`matcher_agent.py`, `learning_agent.py`),
and the LangGraph wiring (`workflow.py`).

Conventions of the embedding:
- `datetime.utcnow()` timestamps are abstracted as a `now : Nat`
  parameter threaded into every function that records a timestamp.
- LLM results (match scores, reasoning strings) are external inputs and
  appear as explicit function parameters (`scoreOf`, `reasonOf`),
  matching the spec's treatment of the scoring heuristic as an external
  collaborator specified only at its interface.
- Python `TypedDict` fields are modelled as always-present record
  fields, which is the shape every state produced by
  `create_initial_state` has; `Optional[...]`/`None` becomes `Option`.
- Python dicts keyed by strings become association lists with Python's
  dict-update semantics (updating an existing key keeps its position).
- A stage's `except`-handler (the code path taken when its body raises)
  is embedded as a separate `..._fail` function taking the exception
  message as a parameter; that the handler returns the state instead of
  re-raising is reflected by `..._fail` being a total function.
-/

namespace JobAutomation

/-- A scraped job posting: the fields produced by
`ScraperAgent._scrape_indeed` and read by the matcher and supervisor. -/
structure Job where
  id : String
  title : String
  company : String
  location : String
  description : String
  salary_range : String
  job_type : String
  posted_date : String
  url : String
  source : String
  scraped_at : String
deriving DecidableEq

/-- User preferences, as read via `user_preferences.get(...)` with the
defaults used in the code. `agent_status` is read by
`SupervisorAgent.should_continue_workflow`. -/
structure Prefs where
  keywords : List String
  location : String
  job_type : String
  experience_level : String
  salary_min : ℚ
  skills : List String
  agent_status : Option String
deriving DecidableEq

/-- One entry of `state["errors"]`, as appended by `add_error` in
`state.py`: `{"error": ..., "timestamp": ..., "step": ...}`. -/
structure ErrorEntry where
  error : String
  timestamp : Nat
  step : String
deriving DecidableEq

/-- One entry of `state["agent_decisions"]`, as appended by
`add_agent_decision` in `state.py`. -/
structure DecisionEntry where
  agent : String
  decision : String
  reasoning : String
  success : Bool
  timestamp : Nat
deriving DecidableEq

/-- The `scraping_stats` dict written by `ScraperAgent.execute`. -/
structure ScrapingStats where
  total_scraped : Nat
  indeed_count : Nat
  linkedin_count : Nat
  glassdoor_count : Nat
  timestamp : Nat
deriving DecidableEq

/-- `JobApplicationState` from `state.py`: the single mutable record
threaded through all agents. Dict-valued fields whose contents no
modelled code inspects are kept as opaque association lists. -/
structure JobApplicationState where
  user_id : String
  user_preferences : Prefs
  current_step : String
  workflow_start_time : Nat
  errors : List ErrorEntry
  scraped_jobs : List Job
  scraping_stats : Option ScrapingStats
  matched_jobs : List Job
  matching_scores : List (String × ℚ)
  matching_reasoning : List (String × String)
  current_job : Option Job
  current_job_id : Option String
  base_resume : Option String
  tailored_resume : Option String
  resume_changes : Option (List String)
  tailoring_reasoning : Option String
  approval_request_id : Option String
  approval_status : Option String
  approval_sent_at : Option Nat
  user_feedback : Option String
  application_id : Option String
  application_status : Option String
  application_result : Option (List (String × String))
  learning_insights : List (String × String)
  strategy_adjustments : Option (List (String × String))
  feedback_loop_id : Option String
  agent_decisions : List DecisionEntry
  metrics : List (String × ℚ)
  next_action : Option String
deriving DecidableEq

/-- Python-dict insertion: updating an existing key keeps its position
and replaces the value; a new key is appended at the end. -/
def dictInsert {α : Type} (l : List (String × α)) (k : String) (v : α) :
    List (String × α) :=
  match l with
  | [] => [(k, v)]
  | p :: rest => if p.1 = k then (k, v) :: rest else p :: dictInsert rest k v

/-- Python-dict lookup (first matching key; keys built by `dictInsert`
are unique). -/
def dictGet {α : Type} (k : String) : List (String × α) → Option α
  | [] => none
  | p :: rest => if p.1 = k then some p.2 else dictGet k rest

/-- `create_initial_state` from `state.py`. -/
def create_initial_state (now : Nat) (user_id : String) (prefs : Prefs) :
    JobApplicationState where
  user_id := user_id
  user_preferences := prefs
  current_step := "scrape"
  workflow_start_time := now
  errors := []
  scraped_jobs := []
  scraping_stats := none
  matched_jobs := []
  matching_scores := []
  matching_reasoning := []
  current_job := none
  current_job_id := none
  base_resume := none
  tailored_resume := none
  resume_changes := none
  tailoring_reasoning := none
  approval_request_id := none
  approval_status := none
  approval_sent_at := none
  user_feedback := none
  application_id := none
  application_status := none
  application_result := none
  learning_insights := []
  strategy_adjustments := none
  feedback_loop_id := none
  agent_decisions := []
  metrics := []
  next_action := some "scrape"

/-- `add_agent_decision` from `state.py`: appends one decision entry. -/
def add_agent_decision (now : Nat) (agent decision reasoning : String)
    (success : Bool) (s : JobApplicationState) : JobApplicationState :=
  { s with agent_decisions :=
      s.agent_decisions ++ [⟨agent, decision, reasoning, success, now⟩] }

/-- `add_error` from `state.py`: appends one error entry recording the
message, the timestamp and the current step. -/
def add_error (now : Nat) (error : String) (s : JobApplicationState) :
    JobApplicationState :=
  { s with errors := s.errors ++ [⟨error, now, s.current_step⟩] }

/-- `update_metrics` from `state.py`: dict update of one named metric. -/
def update_metrics (s : JobApplicationState) (name : String) (v : ℚ) :
    JobApplicationState :=
  { s with metrics := dictInsert s.metrics name v }

namespace SupervisorAgent

/-- `SupervisorAgent._decide_after_scrape`: empty `scraped_jobs` gives
`"stop"`, otherwise `"match"`. -/
def decide_after_scrape (s : JobApplicationState) : String :=
  if s.scraped_jobs = [] then "stop" else "match"

/-- `SupervisorAgent._decide_after_match`: empty `matched_jobs` gives
`"learn"`; otherwise, if `current_job` is unset it is set to the first
matched job (and `current_job_id` to its id), and the decision is
`"tailor"`. Returns the decision together with the (possibly mutated)
state. -/
def decide_after_match (s : JobApplicationState) :
    String × JobApplicationState :=
  match s.matched_jobs with
  | [] => ("learn", s)
  | j :: _ =>
    ("tailor",
      if s.current_job.isNone then
        { s with current_job := some j, current_job_id := some j.id }
      else s)

/-- `SupervisorAgent._decide_after_tailor`: a missing or empty (falsy)
`tailored_resume` gives `"match"`, otherwise `"approve"`. -/
def decide_after_tailor (s : JobApplicationState) : String :=
  match s.tailored_resume with
  | none => "match"
  | some r => if r = "" then "match" else "approve"

/-- `SupervisorAgent._decide_after_approval`: dispatch on
`approval_status`; any status other than approved/rejected/expired
(including pending) gives `"wait"`. -/
def decide_after_approval (s : JobApplicationState) : String :=
  if s.approval_status = some "approved" then "apply"
  else if s.approval_status = some "rejected" then "learn"
  else if s.approval_status = some "expired" then "match"
  else "wait"

/-- `SupervisorAgent._decide_after_apply`: removes the current job from
`matched_jobs`, clears `current_job` and `current_job_id`, then decides
`"match"` if jobs remain and `"learn"` otherwise. -/
def decide_after_apply (s : JobApplicationState) :
    String × JobApplicationState :=
  let remaining := s.matched_jobs.filter (fun j => decide (some j.id ≠ s.current_job_id))
  (if 0 < remaining.length then "match" else "learn",
    { s with matched_jobs := remaining, current_job := none,
             current_job_id := none })

/-- The decision dispatch inside `SupervisorAgent.execute` (lines
46-62): branch on `current_step`, with default `"scrape"`. Returns the
decision and the state as possibly mutated by the branch taken. -/
def dispatch (s : JobApplicationState) : String × JobApplicationState :=
  if s.current_step = "scrape" then (decide_after_scrape s, s)
  else if s.current_step = "match" then decide_after_match s
  else if s.current_step = "tailor" then (decide_after_tailor s, s)
  else if s.current_step = "approve" then (decide_after_approval s, s)
  else if s.current_step = "apply" then decide_after_apply s
  else if s.current_step = "learn" then ("stop", s)
  else ("scrape", s)

/-- `SupervisorAgent.execute` (non-raising path): compute the decision,
store it in `next_action`, and append one entry to `agent_decisions`. -/
def execute (now : Nat) (s : JobApplicationState) : JobApplicationState :=
  let p := dispatch s
  add_agent_decision now "supervisor" ("next_action=" ++ p.1)
    ("Based on current_step=" ++ s.current_step) true
    { p.2 with next_action := some p.1 }

/-- The `except` handler of `SupervisorAgent.execute` (lines 79-83),
taken when the decision logic raises with message `e`: append one error
entry, set `next_action` to `"stop"`, and return the state. -/
def execute_fail (now : Nat) (e : String) (s : JobApplicationState) :
    JobApplicationState :=
  { add_error now ("Supervisor error: " ++ e) s with
      next_action := some "stop" }

/-- `SupervisorAgent.should_continue_workflow`: `False` when more than
10 errors have accumulated or the user paused the agents, else `True`.
(No caller in the repository invokes it: the compiled LangGraph routes
only on `next_action`.) -/
def should_continue_workflow (s : JobApplicationState) : Bool :=
  if 10 < s.errors.length then false
  else if s.user_preferences.agent_status = some "paused" then false
  else true

end SupervisorAgent

namespace ScraperAgent

/-- The mock job list built by `ScraperAgent._scrape_indeed` for
`i in range(1, 6)`, with Python's falsy-string defaults for location
and job type. -/
def scrape_indeed (now : Nat) (keywords : List String)
    (location job_type : String) : List Job :=
  (List.range 5).map (fun i0 =>
    let i := i0 + 1
    let kw0 := keywords.headD "Python"
    { id := "indeed_" ++ toString i
      title := "Software Engineer - " ++ kw0
      company := "Tech Company " ++ toString i
      location := if location = "" then "Remote" else location
      description := "We are looking for a talented software engineer with experience in "
        ++ kw0 ++ ". Must have 3+ years of experience."
      salary_range := "$80,000 - $120,000"
      job_type := if job_type = "" then "Full-time" else job_type
      posted_date := toString now
      url := "https://www.indeed.com/viewjob?jk=mock" ++ toString i
      source := "indeed"
      scraped_at := toString now })

/-- `ScraperAgent.execute` (non-raising path): overwrite `scraped_jobs`
with the jobs scraped from Indeed, record stats, set `current_step` to
`"match"`, append one decision entry, and update the `jobs_scraped`
metric. -/
def execute (now : Nat) (s : JobApplicationState) : JobApplicationState :=
  let prefs := s.user_preferences
  let indeed_jobs := scrape_indeed now prefs.keywords prefs.location prefs.job_type
  let all_jobs := indeed_jobs
  let s1 := { s with
    scraped_jobs := all_jobs
    scraping_stats := some ⟨all_jobs.length, indeed_jobs.length, 0, 0, now⟩
    current_step := "match" }
  let s2 := add_agent_decision now "scraper"
    ("scraped_" ++ toString all_jobs.length ++ "_jobs")
    ("Scraped from Indeed using keywords: " ++ toString prefs.keywords)
    true s1
  update_metrics s2 "jobs_scraped" all_jobs.length

/-- The `except` handler of `ScraperAgent.execute` (lines 91-95): append
one error entry, set `current_step` to `"match"` (continue workflow),
and return the state. -/
def execute_fail (now : Nat) (e : String) (s : JobApplicationState) :
    JobApplicationState :=
  { add_error now ("Scraper error: " ++ e) s with current_step := "match" }

end ScraperAgent

/-- Python's `list.sort(key=..., reverse=True)` used by
`MatcherAgent.execute`: stable sort, descending by key. Insertion of an
element into an already-sorted suffix places it before the first
element whose key is not larger, so earlier elements with equal keys
stay first. -/
def insertByKeyDesc {α : Type} (key : α → ℚ) (a : α) : List α → List α
  | [] => [a]
  | b :: bs => if key a < key b then b :: insertByKeyDesc key a bs
               else a :: b :: bs

/-- Stable descending sort by key (see `insertByKeyDesc`). -/
def sortByKeyDesc {α : Type} (key : α → ℚ) : List α → List α
  | [] => []
  | a :: as => insertByKeyDesc key a (sortByKeyDesc key as)

namespace MatcherAgent

/-- `MatcherAgent.execute` (non-raising path). `scoreOf`/`reasonOf` are
the per-job results of `_calculate_match_score` (LLM, external), `thr`
is `self.min_score_threshold`. With no scraped jobs the stage is a
no-op apart from setting `current_step` to `"learn"`. Otherwise it
records every score, keeps the jobs with score ≥ threshold in scrape
order, sorts them by score descending (stably), sets
`current_step` to `"tailor"`, appends one decision entry and updates
the `jobs_matched` and `match_rate` metrics. The sort key looks each
job's score up in the `matching_scores` dict exactly as
`matching_scores[j.get("id")]` does (the lookup always succeeds, so the
`getD` default is never taken). -/
def execute (now : Nat) (scoreOf : Job → ℚ) (reasonOf : Job → String)
    (thr : ℚ) (s : JobApplicationState) : JobApplicationState :=
  if s.scraped_jobs = [] then { s with current_step := "learn" }
  else
    let scores := s.scraped_jobs.foldl
      (fun acc j => dictInsert acc j.id (scoreOf j)) []
    let reasons := s.scraped_jobs.foldl
      (fun acc j => dictInsert acc j.id (reasonOf j)) []
    let matched0 := s.scraped_jobs.filter (fun j => decide (thr ≤ scoreOf j))
    let matched := sortByKeyDesc (fun j => (dictGet j.id scores).getD 0) matched0
    let s1 := { s with
      matched_jobs := matched
      matching_scores := scores
      matching_reasoning := reasons
      current_step := "tailor" }
    let s2 := add_agent_decision now "matcher"
      ("matched_" ++ toString matched.length ++ "_of_"
        ++ toString s.scraped_jobs.length ++ "_jobs")
      ("Filtered jobs with score >= " ++ toString thr) true s1
    let s3 := update_metrics s2 "jobs_matched" matched.length
    update_metrics s3 "match_rate"
      (if s.scraped_jobs = [] then 0
       else (matched.length : ℚ) / (s.scraped_jobs.length : ℚ))

/-- The `except` handler of `MatcherAgent.execute` (lines 101-105):
append one error entry, set `current_step` to `"learn"`, and return the
state. -/
def execute_fail (now : Nat) (e : String) (s : JobApplicationState) :
    JobApplicationState :=
  { add_error now ("Matcher error: " ++ e) s with current_step := "learn" }

/-- `MatcherAgent.adjust_threshold` (lines 294-319): with no matched
jobs, lower `min_score_threshold` by 0.05 with floor 0.50; with more
than 20 matched jobs, raise it by 0.05 with ceiling 0.90; otherwise
leave it unchanged. -/
def adjust_threshold (thr : ℚ) (matched_count : ℕ) : ℚ :=
  if matched_count = 0 then max (1/2) (thr - 1/20)
  else if 20 < matched_count then min (9/10) (thr + 1/20)
  else thr

end MatcherAgent

namespace ResumeTailorAgent

/-- The `except` handler of `ResumeTailorAgent.execute` (lines 91-95 of
`resume_tailor_agent.py`): append one error entry, set `current_step`
to `"match"` (skip to next job), and return the state. -/
def execute_fail (now : Nat) (e : String) (s : JobApplicationState) :
    JobApplicationState :=
  { add_error now ("Resume tailor error: " ++ e) s with
      current_step := "match" }

end ResumeTailorAgent

namespace LearningAgent

/-- The `match_rate` computed by `LearningAgent._analyze_workflow`
(line 97), also the acceptance rate of the spec: matched over scraped,
0 when nothing was scraped. -/
def match_rate (scraped_count matched_count : ℕ) : ℚ :=
  if 0 < scraped_count then (matched_count : ℚ) / (scraped_count : ℚ)
  else 0

/-- The matcher portion of
`LearningAgent._generate_strategy_adjustments` (lines 153-161): a match
rate above 0.8 yields the fixed new threshold 0.75, a match rate below
0.1 yields the fixed new threshold 0.60, anything else no adjustment. -/
def matcher_adjustment (mr : ℚ) : Option (String × ℚ) :=
  if 4/5 < mr then some ("raise_threshold", 3/4)
  else if mr < 1/10 then some ("lower_threshold", 3/5)
  else none

/-- The `except` handler of `LearningAgent.execute` (lines 72-76):
append one error entry, set `current_step` to `"complete"`, and return
the state. -/
def execute_fail (now : Nat) (e : String) (s : JobApplicationState) :
    JobApplicationState :=
  { add_error now ("Learning error: " ++ e) s with
      current_step := "complete" }

end LearningAgent

namespace JobApplicationWorkflow

/-- The state after the first node run by
`JobApplicationWorkflow.resume_workflow`. `resume_workflow` calls
`self.workflow.ainvoke(state)` on the graph compiled by
`_build_workflow`, whose entry point is `set_entry_point("scrape")` and
which is compiled without a checkpointer, so every invocation —
including a resume — starts at the `scrape` node
(`self.scraper.execute`). -/
def resume_first_state (now : Nat) (s : JobApplicationState) :
    JobApplicationState :=
  ScraperAgent.execute now s

/-- The state after the first supervisor decision of a resumed run:
`_build_workflow` adds the static edge `("scrape", "supervisor")`, so
the supervisor node runs on the output of the scrape node. -/
def resume_first_decision (now : Nat) (s : JobApplicationState) :
    JobApplicationState :=
  SupervisorAgent.execute now (ScraperAgent.execute now s)

end JobApplicationWorkflow

/-! Concrete states used to evaluate the code on the scenarios of the
claims. `sampleJob i` is a job record with identity `i`. -/

/-- A concrete job with the given identity. -/
def sampleJob (i : String) : Job :=
  ⟨i, "T", "C", "L", "D", "S", "F", "P", "U", "indeed", "A"⟩

/-- Concrete user preferences. -/
def basePrefs : Prefs := ⟨["Python"], "Remote", "", "", 0, [], none⟩

/-- The initial state of a run for a concrete user. -/
def baseState : JobApplicationState := create_initial_state 0 "u1" basePrefs

/-- A state right after discovery, with one scraped job and eleven
accumulated errors (over the error budget of 10). -/
def stateErrBudget : JobApplicationState :=
  { baseState with
      scraped_jobs := [sampleJob "j1"]
      errors := (List.range 11).map (fun i => ⟨"e", i, "scrape"⟩) }

/-- A suspended state: the approval gate is open and still pending, a
candidate is active, and the tailored resume exists. -/
def stateSuspended : JobApplicationState :=
  { baseState with
      current_step := "wait"
      approval_status := some "pending"
      approval_request_id := some "req1"
      scraped_jobs := [sampleJob "A", sampleJob "B"]
      matched_jobs := [sampleJob "A"]
      current_job := some (sampleJob "A")
      current_job_id := some "A"
      base_resume := some "base"
      tailored_resume := some "tailored" }

/-- A state whose approval gate has just expired while candidate `A`
was active and candidate `B` was still matched. -/
def stateExpired : JobApplicationState :=
  { baseState with
      current_step := "approve"
      approval_status := some "expired"
      scraped_jobs := [sampleJob "A", sampleJob "B"]
      matched_jobs := [sampleJob "A", sampleJob "B"]
      current_job := some (sampleJob "A")
      current_job_id := some "A"
      tailored_resume := some "r" }

/-- A state right after the apply stage, with two matched jobs of which
`A` is the current one. -/
def stateAfterApply : JobApplicationState :=
  { baseState with
      current_step := "apply"
      matched_jobs := [sampleJob "A", sampleJob "B"]
      current_job := some (sampleJob "A")
      current_job_id := some "A"
      application_status := some "submitted" }

/-- Scenario A scores: candidates c1..c5 score 0.9, 0.3, 0.75, 0.6,
0.1 (written with `mkRat`; the theorem using them also states the
equalities with the usual fraction notation). -/
def scoreScenarioA : Job → ℚ := fun j =>
  if j.id = "c1" then mkRat 9 10
  else if j.id = "c2" then mkRat 3 10
  else if j.id = "c3" then mkRat 75 100
  else if j.id = "c4" then mkRat 6 10
  else mkRat 1 10

/-- A state entering the score stage with the five Scenario A
candidates. -/
def stateScenarioA : JobApplicationState :=
  { baseState with
      current_step := "match"
      scraped_jobs := [sampleJob "c1", sampleJob "c2", sampleJob "c3",
                       sampleJob "c4", sampleJob "c5"] }

/-! Theorems. -/

/-- The supervisor's `execute` always stores the dispatch decision in
`next_action`. -/
theorem SupervisorAgent.execute_next_action (now : Nat)
    (s : JobApplicationState) :
    (SupervisorAgent.execute now s).next_action =
      some (SupervisorAgent.dispatch s).1 := by
  simp [SupervisorAgent.execute, add_agent_decision]

/-- The decision component of `dispatch`, written out per branch. -/
theorem SupervisorAgent.dispatch_fst (s : JobApplicationState) :
    (SupervisorAgent.dispatch s).1 =
      if s.current_step = "scrape" then SupervisorAgent.decide_after_scrape s
      else if s.current_step = "match" then (SupervisorAgent.decide_after_match s).1
      else if s.current_step = "tailor" then SupervisorAgent.decide_after_tailor s
      else if s.current_step = "approve" then SupervisorAgent.decide_after_approval s
      else if s.current_step = "apply" then (SupervisorAgent.decide_after_apply s).1
      else if s.current_step = "learn" then "stop"
      else "scrape" := by
  simp only [SupervisorAgent.dispatch]
  split_ifs <;> rfl

/-- The decision component of `decide_after_match` depends only on
whether `matched_jobs` is empty. -/
theorem SupervisorAgent.decide_after_match_fst (s : JobApplicationState) :
    (SupervisorAgent.decide_after_match s).1 =
      if s.matched_jobs = [] then "learn" else "tailor" := by
  cases h : s.matched_jobs <;> simp [SupervisorAgent.decide_after_match, h]

/-- C1 (counterexample): in the initial state (discovery dispatch,
no scraped jobs) the router decision is not `learn`. -/
theorem C1_counterexample :
    baseState.current_step = "scrape" ∧ baseState.scraped_jobs = [] ∧
    (SupervisorAgent.execute 0 baseState).next_action ≠ some "learn" := by
  refine ⟨rfl, rfl, ?_⟩
  decide

/-- C1 (amended): for every state dispatched at the discovery step with
an empty `scraped_jobs` sequence, the router decision is `stop` (and in
particular never `match`, the code's name for the score stage). -/
theorem C1_empty_discovery_decides_stop (now : Nat)
    (s : JobApplicationState) (h1 : s.current_step = "scrape")
    (h2 : s.scraped_jobs = []) :
    (SupervisorAgent.execute now s).next_action = some "stop" := by
  simp [SupervisorAgent.execute, SupervisorAgent.dispatch,
    SupervisorAgent.decide_after_scrape, add_agent_decision, h1, h2]

/-- C1 (witness): the amended theorem applied to the concrete initial
state. -/
theorem C1_witness :
    baseState.current_step = "scrape" ∧ baseState.scraped_jobs = [] ∧
    (SupervisorAgent.execute 0 baseState).next_action = some "stop" :=
  ⟨rfl, rfl, C1_empty_discovery_decides_stop 0 baseState rfl rfl⟩

/-- C3 (counterexample): a state over the error budget (11 errors) with
a job discovered still gets the router decision `match`, not `stop`. -/
theorem C3_counterexample :
    10 < stateErrBudget.errors.length ∧
    (SupervisorAgent.execute 0 stateErrBudget).next_action ≠ some "stop" := by
  refine ⟨by decide, ?_⟩
  decide

/-- C3 (amended): the error budget lives only in
`should_continue_workflow`, which returns `false` whenever more than 10
errors have accumulated — but no caller invokes it, and the decisions
of `SupervisorAgent.execute` are independent of the `errors` field, so
a decision from an over-budget state need not be `stop`. -/
theorem C3_error_budget_not_consulted :
    (∀ s : JobApplicationState, 10 < s.errors.length →
      SupervisorAgent.should_continue_workflow s = false) ∧
    (∀ (now : Nat) (s : JobApplicationState) (es : List ErrorEntry),
      (SupervisorAgent.execute now { s with errors := es }).next_action =
        (SupervisorAgent.execute now s).next_action) := by
  constructor
  · intro s h
    simp [SupervisorAgent.should_continue_workflow, h]
  · intro now s es
    simp [SupervisorAgent.execute_next_action, SupervisorAgent.dispatch_fst,
      SupervisorAgent.decide_after_match_fst, SupervisorAgent.decide_after_scrape,
      SupervisorAgent.decide_after_tailor, SupervisorAgent.decide_after_approval,
      SupervisorAgent.decide_after_apply]

/-- C3 (witness): the amended theorem applied to the concrete
over-budget state and to a concrete errors rewrite. -/
theorem C3_witness :
    SupervisorAgent.should_continue_workflow stateErrBudget = false ∧
    (SupervisorAgent.execute 0
        { baseState with errors := [⟨"x", 0, "scrape"⟩] }).next_action =
      (SupervisorAgent.execute 0 baseState).next_action :=
  ⟨C3_error_budget_not_consulted.1 stateErrBudget (by decide),
   C3_error_budget_not_consulted.2 0 baseState [⟨"x", 0, "scrape"⟩]⟩

/-- When the step just dispatched is neither `match` nor `apply`, the
dispatch returns the state unchanged. -/
theorem SupervisorAgent.dispatch_snd_of_not_match_apply
    (s : JobApplicationState) (h1 : s.current_step ≠ "match")
    (h2 : s.current_step ≠ "apply") :
    (SupervisorAgent.dispatch s).2 = s := by
  simp only [SupervisorAgent.dispatch]
  split_ifs <;> rfl

/-- At the `match` step the dispatch state is the one produced by
`decide_after_match`. -/
theorem SupervisorAgent.dispatch_snd_match (s : JobApplicationState)
    (h : s.current_step = "match") :
    (SupervisorAgent.dispatch s).2 = (SupervisorAgent.decide_after_match s).2 := by
  simp [SupervisorAgent.dispatch, h]

/-- The supervisor's `execute` writes the dispatch's state through,
touching only `next_action` and `agent_decisions` on top of it. -/
theorem SupervisorAgent.execute_proj (now : Nat) (s : JobApplicationState) :
    (SupervisorAgent.execute now s).current_job =
      (SupervisorAgent.dispatch s).2.current_job ∧
    (SupervisorAgent.execute now s).matched_jobs =
      (SupervisorAgent.dispatch s).2.matched_jobs ∧
    (SupervisorAgent.execute now s).current_job_id =
      (SupervisorAgent.dispatch s).2.current_job_id := by
  refine ⟨?_, ?_, ?_⟩ <;> simp [SupervisorAgent.execute, add_agent_decision]

/-- `decide_after_match` never clears an already-set `current_job`. -/
theorem SupervisorAgent.decide_after_match_keeps_current_job
    (s : JobApplicationState) (h : s.current_job.isSome = true) :
    (SupervisorAgent.decide_after_match s).2.current_job = s.current_job := by
  cases hc : s.current_job with
  | none => rw [hc] at h; simp at h
  | some j => cases hm : s.matched_jobs <;>
      simp [SupervisorAgent.decide_after_match, hm, hc]

/-- C4 (counterexample): resuming the concrete suspended run (gate still
pending) mutates the state — the first node run is the scrape node,
which sets `current_step` to `match` — and the first router decision of
the resumed run is `tailor`, not `wait`. -/
theorem C4_counterexample :
    stateSuspended.approval_status = some "pending" ∧
    (JobApplicationWorkflow.resume_first_state 0 stateSuspended).current_step ≠
      stateSuspended.current_step ∧
    (JobApplicationWorkflow.resume_first_decision 0 stateSuspended).next_action ≠
      some "wait" := by
  refine ⟨rfl, by decide, by decide⟩

/-- C4 (amended): resumption re-enters at the graph entry point, the
scrape node — not at the gate re-evaluation. The scrape node overwrites
`scraped_jobs` with fresh results and sets `current_step` to `match`,
so a resume is never a no-op; with matched jobs present the first
decision of the resumed run is `tailor`, not `wait`. A supervisor
evaluation of the suspended step `wait` itself decides `scrape` (the
dispatch default), not `wait`. -/
theorem C4_resume_reenters_at_scrape :
    (∀ (now : Nat) (s : JobApplicationState),
      (JobApplicationWorkflow.resume_first_state now s).current_step = "match" ∧
      (JobApplicationWorkflow.resume_first_state now s).scraped_jobs =
        ScraperAgent.scrape_indeed now s.user_preferences.keywords
          s.user_preferences.location s.user_preferences.job_type) ∧
    (∀ (now : Nat) (s : JobApplicationState), s.matched_jobs ≠ [] →
      (JobApplicationWorkflow.resume_first_decision now s).next_action =
        some "tailor") ∧
    (∀ (now : Nat) (s : JobApplicationState), s.current_step = "wait" →
      (SupervisorAgent.execute now s).next_action = some "scrape") := by
  refine ⟨?_, ?_, ?_⟩
  · intro now s
    constructor <;>
      simp [JobApplicationWorkflow.resume_first_state, ScraperAgent.execute,
        add_agent_decision, update_metrics]
  · intro now s h
    simp [JobApplicationWorkflow.resume_first_decision,
      SupervisorAgent.execute_next_action, SupervisorAgent.dispatch_fst,
      SupervisorAgent.decide_after_match_fst, ScraperAgent.execute,
      add_agent_decision, update_metrics, h]
  · intro now s h
    simp [SupervisorAgent.execute_next_action, SupervisorAgent.dispatch_fst, h]

/-- C4 (witness): the amended theorem applied to the concrete suspended
state. -/
theorem C4_witness :
    stateSuspended.matched_jobs ≠ [] ∧ stateSuspended.current_step = "wait" ∧
    (JobApplicationWorkflow.resume_first_decision 0 stateSuspended).next_action =
      some "tailor" ∧
    (SupervisorAgent.execute 0 stateSuspended).next_action = some "scrape" :=
  ⟨by decide, rfl,
   C4_resume_reenters_at_scrape.2.1 0 stateSuspended (by decide),
   C4_resume_reenters_at_scrape.2.2 0 stateSuspended rfl⟩

/-- C5 (counterexample): after the gate of the concrete state expires,
the router decides `match`, but the previously active candidate `A` is
not excluded: it remains `current_job` after the expiry decision, and a
subsequent `match`-step selection still leaves candidate `A` active. -/
theorem C5_counterexample :
    stateExpired.approval_status = some "expired" ∧
    stateExpired.current_job = some (sampleJob "A") ∧
    (SupervisorAgent.execute 0 stateExpired).next_action = some "match" ∧
    (SupervisorAgent.execute 0 stateExpired).current_job = some (sampleJob "A") ∧
    (SupervisorAgent.execute 1
        { SupervisorAgent.execute 0 stateExpired with
            current_step := "match" }).current_job = some (sampleJob "A") := by
  refine ⟨rfl, rfl, by decide, by decide, by decide⟩

/-- C5 (amended): re-evaluating an `approve` step with an expired gate
decides `match` (retry with the score/match stage), but the previously
active candidate is not excluded: the decision leaves `current_job` and
`matched_jobs` untouched, and any later `match`-step dispatch keeps an
already-set `current_job` as the active candidate. -/
theorem C5_expired_gate_decides_match_without_exclusion :
    (∀ (now : Nat) (s : JobApplicationState), s.current_step = "approve" →
      s.approval_status = some "expired" →
      (SupervisorAgent.execute now s).next_action = some "match" ∧
      (SupervisorAgent.execute now s).current_job = s.current_job ∧
      (SupervisorAgent.execute now s).matched_jobs = s.matched_jobs) ∧
    (∀ (now : Nat) (s : JobApplicationState), s.current_step = "match" →
      s.current_job.isSome = true →
      (SupervisorAgent.execute now s).current_job = s.current_job) := by
  constructor
  · intro now s h1 h2
    have hd : (SupervisorAgent.dispatch s).2 = s :=
      SupervisorAgent.dispatch_snd_of_not_match_apply s
        (by simp [h1]) (by simp [h1])
    refine ⟨?_, ?_, ?_⟩
    · simp [SupervisorAgent.execute_next_action, SupervisorAgent.dispatch_fst,
        SupervisorAgent.decide_after_approval, h1, h2]
    · rw [(SupervisorAgent.execute_proj now s).1, hd]
    · rw [(SupervisorAgent.execute_proj now s).2.1, hd]
  · intro now s h1 h2
    rw [(SupervisorAgent.execute_proj now s).1,
      SupervisorAgent.dispatch_snd_match s h1,
      SupervisorAgent.decide_after_match_keeps_current_job s h2]

/-- C5 (witness): the amended theorem applied to the concrete expired
state and to a concrete match-step state. -/
theorem C5_witness :
    stateExpired.current_step = "approve" ∧
    stateExpired.approval_status = some "expired" ∧
    ((SupervisorAgent.execute 0 stateExpired).next_action = some "match" ∧
     (SupervisorAgent.execute 0 stateExpired).current_job =
       stateExpired.current_job ∧
     (SupervisorAgent.execute 0 stateExpired).matched_jobs =
       stateExpired.matched_jobs) ∧
    (SupervisorAgent.execute 0
        { stateScenarioA with current_job := some (sampleJob "c1") }).current_job =
      some (sampleJob "c1") :=
  ⟨rfl, rfl,
   C5_expired_gate_decides_match_without_exclusion.1 0 stateExpired rfl rfl,
   (C5_expired_gate_decides_match_without_exclusion.2 0
     { stateScenarioA with current_job := some (sampleJob "c1") } rfl rfl).trans
     rfl⟩

/-- Every dispatch branch leaves all state fields other than
`matched_jobs`, `current_job` and `current_job_id` unchanged. -/
theorem SupervisorAgent.dispatch_snd_frame (s : JobApplicationState) :
    (SupervisorAgent.dispatch s).2.user_id = s.user_id ∧
    (SupervisorAgent.dispatch s).2.user_preferences = s.user_preferences ∧
    (SupervisorAgent.dispatch s).2.current_step = s.current_step ∧
    (SupervisorAgent.dispatch s).2.workflow_start_time = s.workflow_start_time ∧
    (SupervisorAgent.dispatch s).2.errors = s.errors ∧
    (SupervisorAgent.dispatch s).2.scraped_jobs = s.scraped_jobs ∧
    (SupervisorAgent.dispatch s).2.scraping_stats = s.scraping_stats ∧
    (SupervisorAgent.dispatch s).2.matching_scores = s.matching_scores ∧
    (SupervisorAgent.dispatch s).2.matching_reasoning = s.matching_reasoning ∧
    (SupervisorAgent.dispatch s).2.base_resume = s.base_resume ∧
    (SupervisorAgent.dispatch s).2.tailored_resume = s.tailored_resume ∧
    (SupervisorAgent.dispatch s).2.resume_changes = s.resume_changes ∧
    (SupervisorAgent.dispatch s).2.tailoring_reasoning = s.tailoring_reasoning ∧
    (SupervisorAgent.dispatch s).2.approval_request_id = s.approval_request_id ∧
    (SupervisorAgent.dispatch s).2.approval_status = s.approval_status ∧
    (SupervisorAgent.dispatch s).2.approval_sent_at = s.approval_sent_at ∧
    (SupervisorAgent.dispatch s).2.user_feedback = s.user_feedback ∧
    (SupervisorAgent.dispatch s).2.application_id = s.application_id ∧
    (SupervisorAgent.dispatch s).2.application_status = s.application_status ∧
    (SupervisorAgent.dispatch s).2.application_result = s.application_result ∧
    (SupervisorAgent.dispatch s).2.learning_insights = s.learning_insights ∧
    (SupervisorAgent.dispatch s).2.strategy_adjustments = s.strategy_adjustments ∧
    (SupervisorAgent.dispatch s).2.feedback_loop_id = s.feedback_loop_id ∧
    (SupervisorAgent.dispatch s).2.agent_decisions = s.agent_decisions ∧
    (SupervisorAgent.dispatch s).2.metrics = s.metrics ∧
    (SupervisorAgent.dispatch s).2.next_action = s.next_action := by
  simp only [SupervisorAgent.dispatch]
  split_ifs <;> first
    | simp [SupervisorAgent.decide_after_apply]
    | (cases hm : s.matched_jobs <;>
        simp [SupervisorAgent.decide_after_match, hm] <;> (try split) <;>
        first | rfl | simp)

/-- C6 (counterexample): the supervisor decision at the concrete
post-apply state rewrites `matched_jobs` and clears `current_job`, so
the router is not free of side effects on those fields. -/
theorem C6_counterexample :
    (SupervisorAgent.execute 0 stateAfterApply).matched_jobs ≠
      stateAfterApply.matched_jobs ∧
    (SupervisorAgent.execute 0 stateAfterApply).current_job ≠
      stateAfterApply.current_job := by
  refine ⟨by decide, by decide⟩

/-- C6 (amended): the supervisor's decision step is a function of the
timestamp and the state (hence deterministic) whose effects are limited
to: recording its decision in `next_action`, appending exactly one
entry to the decision log, and — only when dispatched at the `match` or
`apply` step — mutating `matched_jobs`, `current_job` and
`current_job_id`; every other field is unchanged by every decision. -/
theorem C6_router_effect_frame (now : Nat) (s : JobApplicationState) :
    ((s.current_step ≠ "match" → s.current_step ≠ "apply" →
        (SupervisorAgent.execute now s).matched_jobs = s.matched_jobs ∧
        (SupervisorAgent.execute now s).current_job = s.current_job ∧
        (SupervisorAgent.execute now s).current_job_id = s.current_job_id) ∧
      (SupervisorAgent.execute now s).next_action =
        some (SupervisorAgent.dispatch s).1 ∧
      (SupervisorAgent.execute now s).agent_decisions =
        s.agent_decisions ++
          [⟨"supervisor", "next_action=" ++ (SupervisorAgent.dispatch s).1,
            "Based on current_step=" ++ s.current_step, true, now⟩]) ∧
    (SupervisorAgent.execute now s).user_id = s.user_id ∧
    (SupervisorAgent.execute now s).user_preferences = s.user_preferences ∧
    (SupervisorAgent.execute now s).current_step = s.current_step ∧
    (SupervisorAgent.execute now s).workflow_start_time = s.workflow_start_time ∧
    (SupervisorAgent.execute now s).errors = s.errors ∧
    (SupervisorAgent.execute now s).scraped_jobs = s.scraped_jobs ∧
    (SupervisorAgent.execute now s).scraping_stats = s.scraping_stats ∧
    (SupervisorAgent.execute now s).matching_scores = s.matching_scores ∧
    (SupervisorAgent.execute now s).matching_reasoning = s.matching_reasoning ∧
    (SupervisorAgent.execute now s).base_resume = s.base_resume ∧
    (SupervisorAgent.execute now s).tailored_resume = s.tailored_resume ∧
    (SupervisorAgent.execute now s).resume_changes = s.resume_changes ∧
    (SupervisorAgent.execute now s).tailoring_reasoning = s.tailoring_reasoning ∧
    (SupervisorAgent.execute now s).approval_request_id = s.approval_request_id ∧
    (SupervisorAgent.execute now s).approval_status = s.approval_status ∧
    (SupervisorAgent.execute now s).approval_sent_at = s.approval_sent_at ∧
    (SupervisorAgent.execute now s).user_feedback = s.user_feedback ∧
    (SupervisorAgent.execute now s).application_id = s.application_id ∧
    (SupervisorAgent.execute now s).application_status = s.application_status ∧
    (SupervisorAgent.execute now s).application_result = s.application_result ∧
    (SupervisorAgent.execute now s).learning_insights = s.learning_insights ∧
    (SupervisorAgent.execute now s).strategy_adjustments = s.strategy_adjustments ∧
    (SupervisorAgent.execute now s).feedback_loop_id = s.feedback_loop_id ∧
    (SupervisorAgent.execute now s).metrics = s.metrics := by
  obtain ⟨h1, h2, h3, h4, h5, h6, h7, h8, h9, h10, h11, h12, h13, h14, h15,
      h16, h17, h18, h19, h20, h21, h22, h23, h24, h25, h26⟩ :=
    SupervisorAgent.dispatch_snd_frame s
  refine ⟨⟨?_, ?_, ?_⟩, ?_⟩
  · intro ha hb
    have hd : (SupervisorAgent.dispatch s).2 = s :=
      SupervisorAgent.dispatch_snd_of_not_match_apply s ha hb
    exact ⟨((SupervisorAgent.execute_proj now s).2.1).trans (by rw [hd]),
      ((SupervisorAgent.execute_proj now s).1).trans (by rw [hd]),
      ((SupervisorAgent.execute_proj now s).2.2).trans (by rw [hd])⟩
  · exact SupervisorAgent.execute_next_action now s
  · simp [SupervisorAgent.execute, add_agent_decision, h24]
  · simp [SupervisorAgent.execute, add_agent_decision, h1, h2, h3, h4, h5, h6,
      h7, h8, h9, h10, h11, h12, h13, h14, h15, h16, h17, h18, h19, h20, h21,
      h22, h23, h25]

/-- C6 (witness): the amended frame theorem applied at the concrete
expired-gate state (an `approve` dispatch). -/
theorem C6_witness :
    stateExpired.current_step ≠ "match" ∧ stateExpired.current_step ≠ "apply" ∧
    ((SupervisorAgent.execute 0 stateExpired).matched_jobs =
        stateExpired.matched_jobs ∧
      (SupervisorAgent.execute 0 stateExpired).current_job =
        stateExpired.current_job ∧
      (SupervisorAgent.execute 0 stateExpired).current_job_id =
        stateExpired.current_job_id) ∧
    (SupervisorAgent.execute 0 stateExpired).errors = stateExpired.errors :=
  ⟨by decide, by decide,
   (C6_router_effect_frame 0 stateExpired).1.1 (by decide) (by decide),
   (C6_router_effect_frame 0 stateExpired).2.2.2.2.2.1⟩

/-- C2 (counterexample): with 1 matched of 20 scraped the acceptance
rate is 0.05 < 0.10, yet `adjust_threshold` leaves threshold 0.70
unchanged (its trigger is a matched count of zero, not the rate), and
the learning agent's adjustment for that rate proposes the fixed value
0.60 — neither lowers 0.70 by exactly 0.05. -/
theorem C2_counterexample :
    LearningAgent.match_rate 20 1 < 1/10 ∧
    MatcherAgent.adjust_threshold (7/10) 1 = 7/10 ∧
    ((7 : ℚ)/10) ≠ 7/10 - 1/20 ∧
    LearningAgent.matcher_adjustment (LearningAgent.match_rate 20 1) =
      some ("lower_threshold", 3/5) ∧
    ((3 : ℚ)/5) ≠ 7/10 - 1/20 := by
  norm_num [LearningAgent.match_rate, MatcherAgent.adjust_threshold,
    LearningAgent.matcher_adjustment]

/-- C2 (amended): `adjust_threshold` lowers the threshold by exactly
0.05 clamped at floor 0.50 when the matched count is zero, raises it by
exactly 0.05 clamped at ceiling 0.90 when the matched count exceeds 20,
and otherwise leaves it unchanged; in particular, from threshold 0.70
with 0 matched jobs (as with 0 accepted of 10 items) the new threshold
is 0.65. -/
theorem C2_threshold_adjustment_rule :
    (∀ t : ℚ, MatcherAgent.adjust_threshold t 0 = max (1/2) (t - 1/20)) ∧
    (∀ (t : ℚ) (n : ℕ), 20 < n →
      MatcherAgent.adjust_threshold t n = min (9/10) (t + 1/20)) ∧
    (∀ (t : ℚ) (n : ℕ), n ≠ 0 → n ≤ 20 →
      MatcherAgent.adjust_threshold t n = t) ∧
    MatcherAgent.adjust_threshold (7/10) 0 = 13/20 := by
  refine ⟨?_, ?_, ?_, ?_⟩
  · intro t
    simp [MatcherAgent.adjust_threshold]
  · intro t n h
    simp only [MatcherAgent.adjust_threshold]
    rw [if_neg (by omega : ¬ n = 0), if_pos h]
  · intro t n h1 h2
    simp only [MatcherAgent.adjust_threshold]
    rw [if_neg h1, if_neg (by omega : ¬ 20 < n)]
  · rw [MatcherAgent.adjust_threshold]
    norm_num [max_eq_right]

/-- C2 (witness): the amended rule applied at matched counts 25, 5
and 0 from threshold 0.70. -/
theorem C2_witness :
    MatcherAgent.adjust_threshold (7/10) 25 = min (9/10) (7/10 + 1/20) ∧
    MatcherAgent.adjust_threshold (7/10) 5 = 7/10 ∧
    MatcherAgent.adjust_threshold (7/10) 0 = 13/20 :=
  ⟨C2_threshold_adjustment_rule.2.1 (7/10) 25 (by norm_num),
   C2_threshold_adjustment_rule.2.2.1 (7/10) 5 (by norm_num) (by norm_num),
   C2_threshold_adjustment_rule.2.2.2⟩

/-- One `adjust_threshold` application preserves the bounds
`[0.50, 0.90]`. -/
theorem MatcherAgent.adjust_threshold_mem (t : ℚ) (n : ℕ)
    (h1 : 1/2 ≤ t) (h2 : t ≤ 9/10) :
    1/2 ≤ MatcherAgent.adjust_threshold t n ∧
    MatcherAgent.adjust_threshold t n ≤ 9/10 := by
  rw [MatcherAgent.adjust_threshold]
  split_ifs
  · exact ⟨le_max_left _ _, max_le (by norm_num) (by linarith)⟩
  · exact ⟨le_min (by norm_num) (by linarith), min_le_left _ _⟩
  · exact ⟨h1, h2⟩

/-- C8: for every sequence of matched counts (hence for every sequence
of acceptance rates a run can produce) and any number of
`adjust_threshold` applications starting inside `[0.50, 0.90]`, the
threshold stays inside `[0.50, 0.90]`. -/
theorem C8_threshold_always_bounded (ns : List ℕ) (t : ℚ)
    (h1 : 1/2 ≤ t) (h2 : t ≤ 9/10) :
    1/2 ≤ ns.foldl MatcherAgent.adjust_threshold t ∧
    ns.foldl MatcherAgent.adjust_threshold t ≤ 9/10 := by
  induction ns generalizing t with
  | nil => exact ⟨h1, h2⟩
  | cons n ns ih =>
    simp only [List.foldl_cons]
    have hb := MatcherAgent.adjust_threshold_mem t n h1 h2
    exact ih _ hb.1 hb.2

/-- C8 (witness): the invariant applied to the concrete sequence of
matched counts `[0, 5, 25, 0, 0]` from threshold 0.70. -/
theorem C8_witness :
    (1 : ℚ)/2 ≤ 7/10 ∧ (7 : ℚ)/10 ≤ 9/10 ∧
    (1/2 ≤ [0, 5, 25, 0, 0].foldl MatcherAgent.adjust_threshold (7/10) ∧
      [0, 5, 25, 0, 0].foldl MatcherAgent.adjust_threshold (7/10) ≤ 9/10) :=
  ⟨by norm_num, by norm_num,
   C8_threshold_always_bounded [0, 5, 25, 0, 0] (7/10) (by norm_num)
     (by norm_num)⟩

/-- C7: on the five Scenario A candidates with scores
`[0.9, 0.3, 0.75, 0.6, 0.1]` and threshold 0.70, the matcher keeps
exactly the 0.9- and 0.75-scored candidates in that order (stable sort,
score descending), and the `match`-step decision on the resulting state
picks the 0.9-scored candidate as `current_job` and decides
`tailor`. -/
theorem C7_scenario_a :
    scoreScenarioA (sampleJob "c1") = 9/10 ∧
    scoreScenarioA (sampleJob "c2") = 3/10 ∧
    scoreScenarioA (sampleJob "c3") = 75/100 ∧
    scoreScenarioA (sampleJob "c4") = 6/10 ∧
    scoreScenarioA (sampleJob "c5") = 1/10 ∧
    (mkRat 7 10 : ℚ) = 7/10 ∧
    (MatcherAgent.execute 0 scoreScenarioA (fun _ => "r") (mkRat 7 10)
        stateScenarioA).matched_jobs.map Job.id = ["c1", "c3"] ∧
    (SupervisorAgent.decide_after_match
        (MatcherAgent.execute 0 scoreScenarioA (fun _ => "r") (mkRat 7 10)
          stateScenarioA)).1 = "tailor" ∧
    (SupervisorAgent.decide_after_match
        (MatcherAgent.execute 0 scoreScenarioA (fun _ => "r") (mkRat 7 10)
          stateScenarioA)).2.current_job = some (sampleJob "c1") := by
  refine ⟨?_, ?_, ?_, ?_, ?_, by norm_num [Rat.mkRat_eq_div],
    by decide, by decide, by decide⟩ <;>
    (simp [scoreScenarioA, sampleJob]; norm_num [Rat.mkRat_eq_div])

/-- C9: the failure handler of each stage (`except` block of its
`execute`) appends exactly one entry to `errors`, records the failure
step, redirects `current_step`, leaves every other modelled field
unchanged, and returns the state (it is a total function: nothing
propagates past the stage boundary). -/
theorem C9_stage_failure_handlers (now : Nat) (e : String)
    (s : JobApplicationState) :
    ((MatcherAgent.execute_fail now e s).errors =
        s.errors ++ [⟨"Matcher error: " ++ e, now, s.current_step⟩] ∧
      (MatcherAgent.execute_fail now e s).errors.length = s.errors.length + 1 ∧
      (MatcherAgent.execute_fail now e s).current_step = "learn" ∧
      (MatcherAgent.execute_fail now e s).scraped_jobs = s.scraped_jobs ∧
      (MatcherAgent.execute_fail now e s).matched_jobs = s.matched_jobs ∧
      (MatcherAgent.execute_fail now e s).current_job = s.current_job ∧
      (MatcherAgent.execute_fail now e s).agent_decisions = s.agent_decisions ∧
      (MatcherAgent.execute_fail now e s).next_action = s.next_action ∧
      (MatcherAgent.execute_fail now e s).metrics = s.metrics) ∧
    ((ScraperAgent.execute_fail now e s).errors =
        s.errors ++ [⟨"Scraper error: " ++ e, now, s.current_step⟩] ∧
      (ScraperAgent.execute_fail now e s).errors.length = s.errors.length + 1 ∧
      (ScraperAgent.execute_fail now e s).current_step = "match" ∧
      (ScraperAgent.execute_fail now e s).scraped_jobs = s.scraped_jobs ∧
      (ScraperAgent.execute_fail now e s).matched_jobs = s.matched_jobs ∧
      (ScraperAgent.execute_fail now e s).current_job = s.current_job ∧
      (ScraperAgent.execute_fail now e s).agent_decisions = s.agent_decisions ∧
      (ScraperAgent.execute_fail now e s).next_action = s.next_action ∧
      (ScraperAgent.execute_fail now e s).metrics = s.metrics) ∧
    ((ResumeTailorAgent.execute_fail now e s).errors =
        s.errors ++ [⟨"Resume tailor error: " ++ e, now, s.current_step⟩] ∧
      (ResumeTailorAgent.execute_fail now e s).errors.length =
        s.errors.length + 1 ∧
      (ResumeTailorAgent.execute_fail now e s).current_step = "match" ∧
      (ResumeTailorAgent.execute_fail now e s).scraped_jobs = s.scraped_jobs ∧
      (ResumeTailorAgent.execute_fail now e s).matched_jobs = s.matched_jobs ∧
      (ResumeTailorAgent.execute_fail now e s).current_job = s.current_job ∧
      (ResumeTailorAgent.execute_fail now e s).agent_decisions =
        s.agent_decisions ∧
      (ResumeTailorAgent.execute_fail now e s).next_action = s.next_action ∧
      (ResumeTailorAgent.execute_fail now e s).metrics = s.metrics) ∧
    ((LearningAgent.execute_fail now e s).errors =
        s.errors ++ [⟨"Learning error: " ++ e, now, s.current_step⟩] ∧
      (LearningAgent.execute_fail now e s).errors.length =
        s.errors.length + 1 ∧
      (LearningAgent.execute_fail now e s).current_step = "complete" ∧
      (LearningAgent.execute_fail now e s).scraped_jobs = s.scraped_jobs ∧
      (LearningAgent.execute_fail now e s).matched_jobs = s.matched_jobs ∧
      (LearningAgent.execute_fail now e s).current_job = s.current_job ∧
      (LearningAgent.execute_fail now e s).agent_decisions =
        s.agent_decisions ∧
      (LearningAgent.execute_fail now e s).next_action = s.next_action ∧
      (LearningAgent.execute_fail now e s).metrics = s.metrics) := by
  refine ⟨?_, ?_, ?_, ?_⟩ <;>
    simp [MatcherAgent.execute_fail, ScraperAgent.execute_fail,
      ResumeTailorAgent.execute_fail, LearningAgent.execute_fail, add_error]

/-- C10: the supervisor's exception handler appends exactly one error
entry (recording the message, timestamp and current step), sets
`next_action` to `stop`, and returns the state with every other field
unchanged. -/
theorem C10_supervisor_exception_handler (now : Nat) (e : String)
    (s : JobApplicationState) :
    (SupervisorAgent.execute_fail now e s).errors =
      s.errors ++ [⟨"Supervisor error: " ++ e, now, s.current_step⟩] ∧
    (SupervisorAgent.execute_fail now e s).errors.length =
      s.errors.length + 1 ∧
    (SupervisorAgent.execute_fail now e s).next_action = some "stop" ∧
    (SupervisorAgent.execute_fail now e s).user_id = s.user_id ∧
    (SupervisorAgent.execute_fail now e s).user_preferences =
      s.user_preferences ∧
    (SupervisorAgent.execute_fail now e s).current_step = s.current_step ∧
    (SupervisorAgent.execute_fail now e s).workflow_start_time =
      s.workflow_start_time ∧
    (SupervisorAgent.execute_fail now e s).scraped_jobs = s.scraped_jobs ∧
    (SupervisorAgent.execute_fail now e s).scraping_stats = s.scraping_stats ∧
    (SupervisorAgent.execute_fail now e s).matched_jobs = s.matched_jobs ∧
    (SupervisorAgent.execute_fail now e s).matching_scores =
      s.matching_scores ∧
    (SupervisorAgent.execute_fail now e s).matching_reasoning =
      s.matching_reasoning ∧
    (SupervisorAgent.execute_fail now e s).current_job = s.current_job ∧
    (SupervisorAgent.execute_fail now e s).current_job_id = s.current_job_id ∧
    (SupervisorAgent.execute_fail now e s).base_resume = s.base_resume ∧
    (SupervisorAgent.execute_fail now e s).tailored_resume =
      s.tailored_resume ∧
    (SupervisorAgent.execute_fail now e s).resume_changes = s.resume_changes ∧
    (SupervisorAgent.execute_fail now e s).tailoring_reasoning =
      s.tailoring_reasoning ∧
    (SupervisorAgent.execute_fail now e s).approval_request_id =
      s.approval_request_id ∧
    (SupervisorAgent.execute_fail now e s).approval_status =
      s.approval_status ∧
    (SupervisorAgent.execute_fail now e s).approval_sent_at =
      s.approval_sent_at ∧
    (SupervisorAgent.execute_fail now e s).user_feedback = s.user_feedback ∧
    (SupervisorAgent.execute_fail now e s).application_id = s.application_id ∧
    (SupervisorAgent.execute_fail now e s).application_status =
      s.application_status ∧
    (SupervisorAgent.execute_fail now e s).application_result =
      s.application_result ∧
    (SupervisorAgent.execute_fail now e s).learning_insights =
      s.learning_insights ∧
    (SupervisorAgent.execute_fail now e s).strategy_adjustments =
      s.strategy_adjustments ∧
    (SupervisorAgent.execute_fail now e s).feedback_loop_id =
      s.feedback_loop_id ∧
    (SupervisorAgent.execute_fail now e s).agent_decisions =
      s.agent_decisions ∧
    (SupervisorAgent.execute_fail now e s).metrics = s.metrics := by
  simp [SupervisorAgent.execute_fail, add_error]

end JobAutomation
